/-
Formal model of scripts/generate_app_icon.py and proofs of the spec claims.

The script is a fixed procedural icon generator built on an imaging library.
The shallow embedding below mirrors it as follows.

* Python float arithmetic over the script's fixed decimal constants is
  idealized as exact rational arithmetic; Python `int()` (truncation toward
  zero) becomes `pyIntQ` on rationals and `pyIntR` on reals (reals are needed
  only for the radial gradient, whose distances are square roots).
* The imaging library is deep-embedded: an `Img` is the tree of library
  calls (`Image.new`, drawing batches, Gaussian blur, alpha compositing,
  contrast/sharpness enhancement, `convert`, `resize`) with their exact
  numeric arguments; a drawing batch is a list of `DrawCmd` primitives
  carrying the exact coordinates and fill colors the script computes.
* The standard-library pseudorandom generator is modelled as an explicit
  deterministic state machine `PyRng`, threaded through the one function
  that draws from it; `PyRng.seed` models `random.seed`.  The concrete
  update is a stand-in for the library stream (the library is outside this
  repository); only determinism of the stream and the reseeding behaviour
  are relied upon.
* Filesystem and JSON effects are modelled as an `Event` trace; `JVal` is
  the JSON value written to Contents.json.
-/
import Mathlib

/-- Python `int()` (truncation toward zero) on the exact rational
idealization of the script's float arithmetic. -/
def pyIntQ (q : ℚ) : ℤ := if 0 ≤ q then ⌊q⌋ else -⌊-q⌋

open Classical in
/-- Python `int()` (truncation toward zero) on real values, used for the
radial-gradient channels, which involve a Euclidean distance. -/
noncomputable def pyIntR (x : ℝ) : ℤ := if 0 ≤ x then ⌊x⌋ else -⌊-x⌋

/-- Python `range(start, 0, -step)` for positive `step`: the descending
list `[start, start - step, ...]` of positive values. -/
def rangeDown (start step : ℕ) : List ℕ :=
  (List.range ((start + step - 1) / step)).map (fun j => start - step * j)

/-- A color with alpha, as the 4-tuples the script passes to drawing calls. -/
abbrev RGBA := ℤ × ℤ × ℤ × ℤ

/-- A 3-tuple color used for fully opaque fills; the drawing layer treats it
as alpha 255. -/
def rgbFill (c : ℤ × ℤ × ℤ) : RGBA := (c.1, c.2.1, c.2.2, 255)

def BLACK_PRIMARY : ℤ × ℤ × ℤ := (10, 10, 10)
def BLACK_SECONDARY : ℤ × ℤ × ℤ := (26, 26, 26)
def DARK_GRAY : ℤ × ℤ × ℤ := (35, 38, 45)
def MID_GRAY : ℤ × ℤ × ℤ := (55, 60, 70)
def LIGHT_GRAY : ℤ × ℤ × ℤ := (85, 90, 100)
def CHROME_HIGHLIGHT : ℤ × ℤ × ℤ := (140, 150, 170)
def GREEN_BRIGHT : ℤ × ℤ × ℤ := (0, 255, 65)
def GREEN_NEON : ℤ × ℤ × ℤ := (57, 255, 20)
def GREEN_GLOW : ℤ × ℤ × ℤ := (0, 220, 60)
def GREEN_DIM : ℤ × ℤ × ℤ := (0, 60, 25)
def PURPLE_PRIMARY : ℤ × ℤ × ℤ := (139, 92, 246)
def PURPLE_SECONDARY : ℤ × ℤ × ℤ := (168, 85, 247)
def PURPLE_GLOW : ℤ × ℤ × ℤ := (120, 70, 220)

/-- Model of the standard-library pseudorandom generator: a deterministic
state machine.  The concrete stream below stands in for the library's
(the library is outside this repository); the claims rely only on the
stream being a deterministic function of the state. -/
structure PyRng where
  state : ℕ
deriving DecidableEq

/-- One step of the modelled generator. -/
def PyRng.next (g : PyRng) : ℕ × PyRng :=
  let s := (g.state * 1103515245 + 12345) % 4294967296
  (s / 65536, ⟨s⟩)

/-- Model of `random.seed(n)`: the state becomes a fixed function of `n`. -/
def PyRng.seed (n : ℕ) : PyRng := ⟨n % 4294967296⟩

/-- Model of `random.randint(a, b)` (both endpoints inclusive). -/
def PyRng.randint (g : PyRng) (a b : ℤ) : ℤ × PyRng :=
  let p := g.next
  (a + (p.1 : ℤ) % (b - a + 1), p.2)

/-- Model of `random.choice` on a two-element list. -/
def PyRng.choice2 {α : Type} (g : PyRng) (x y : α) : α × PyRng :=
  let p := g.next
  (if p.1 % 2 = 0 then x else y, p.2)

/-- Model of `random.random()`: a rational in `[0, 1)`. -/
def PyRng.randFloat (g : PyRng) : ℚ × PyRng :=
  let p := g.next
  ((p.1 % 65536 : ℕ) / 65536, p.2)

/-- A drawing primitive issued to the drawing layer, with the exact
coordinates and fill the script computes (`line` also carries its width). -/
inductive DrawCmd where
  | line (x1 y1 x2 y2 : ℚ) (color : RGBA) (width : ℤ)
  | ellipse (x1 y1 x2 y2 : ℚ) (color : RGBA)
  | polygon (pts : List (ℚ × ℚ)) (color : RGBA)
deriving DecidableEq

/-- Tag naming which step of the pipeline issued a drawing batch or
transformation (used to state the pipeline-order claim). -/
inductive Phase where
  | background | circuit | face | gem | eyes | details | glow
  | contrastEnhance | sharpenEnhance | convert | downscale
deriving DecidableEq

/-- Deep embedding of the imaging-library calls the script performs: an
image is the tree of calls that produced it, with exact arguments. -/
inductive Img where
  | new (w h : ℕ) (bg : RGBA)
  | draw (tag : Phase) (base : Img) (cmds : List DrawCmd)
  | alphaComposite (below above : Img)
  | gaussianBlur (base : Img) (radius : ℕ)
  | contrast (base : Img) (factor : ℚ)
  | sharpness (base : Img) (factor : ℚ)
  | convertRGB (base : Img)
  | convertRGBA (base : Img)
  | resize (base : Img) (w h : ℕ)

/-- The mode (`RGB` or `RGBA`) of an image, following the library: `new` is
always called with mode RGBA in this script, `alpha_composite` yields RGBA,
`convert` sets the mode, everything else preserves it. -/
inductive PilMode where
  | RGB | RGBA
deriving DecidableEq

def mode : Img → PilMode
  | .new _ _ _ => .RGBA
  | .draw _ i _ => mode i
  | .alphaComposite _ _ => .RGBA
  | .gaussianBlur i _ => mode i
  | .contrast i _ => mode i
  | .sharpness i _ => mode i
  | .convertRGB _ => .RGB
  | .convertRGBA _ => .RGBA
  | .resize i _ _ => mode i

/-- Width and height of an image: set by `Image.new` and `resize`,
preserved by every other call (`alpha_composite` requires and keeps the
base size). -/
def dims : Img → ℕ × ℕ
  | .new w h _ => (w, h)
  | .draw _ i _ => dims i
  | .alphaComposite a _ => dims a
  | .gaussianBlur i _ => dims i
  | .contrast i _ => dims i
  | .sharpness i _ => dims i
  | .convertRGB i => dims i
  | .convertRGBA i => dims i
  | .resize _ w h => (w, h)

/-- All drawing primitives occurring anywhere in an image's history. -/
def allCmds : Img → List DrawCmd
  | .new _ _ _ => []
  | .draw _ i cs => allCmds i ++ cs
  | .alphaComposite a b => allCmds a ++ allCmds b
  | .gaussianBlur i _ => allCmds i
  | .contrast i _ => allCmds i
  | .sharpness i _ => allCmds i
  | .convertRGB i => allCmds i
  | .convertRGBA i => allCmds i
  | .resize i _ _ => allCmds i

/-- The pipeline phases applied to produce an image, in order.  A drawing
batch contributes its tag, compositing the glow layer contributes `glow`,
the enhancement and conversion calls contribute theirs. -/
def phasesOf : Img → List Phase
  | .new _ _ _ => []
  | .draw t i _ => phasesOf i ++ [t]
  | .alphaComposite a _ => phasesOf a ++ [Phase.glow]
  | .gaussianBlur i _ => phasesOf i
  | .contrast i _ => phasesOf i ++ [Phase.contrastEnhance]
  | .sharpness i _ => phasesOf i ++ [Phase.sharpenEnhance]
  | .convertRGB i => phasesOf i ++ [Phase.convert]
  | .convertRGBA i => phasesOf i
  | .resize i _ _ => phasesOf i ++ [Phase.downscale]

open Classical in
/-- The function `create_radial_gradient`, as the value of the pixel at
`(x, y)` of the image it returns.  Pixels inside the image start as
`(0, 0, 0, 0)` and the loop overwrites exactly those whose Euclidean
distance to `center` is at most `radius` with the truncated linear
interpolation of the two colors; the alpha channel is interpolated only
when the inner color has a fourth component, else it is 255. -/
noncomputable def create_radial_gradient (size : ℕ) (center : ℤ × ℤ)
    (inner_color outer_color : List ℤ) (radius : ℤ) (x y : ℕ) : RGBA :=
  if x < size ∧ y < size then
    let dist : ℝ :=
      Real.sqrt ((((x : ℤ) - center.1) ^ 2 + ((y : ℤ) - center.2) ^ 2 : ℤ) : ℝ)
    if dist ≤ (radius : ℝ) then
      let t : ℝ := dist / (radius : ℝ)
      let ic : ℕ → ℝ := fun k => ((inner_color.getD k 0 : ℤ) : ℝ)
      let oc : ℕ → ℝ := fun k => ((outer_color.getD k 0 : ℤ) : ℝ)
      (pyIntR (ic 0 * (1 - t) + oc 0 * t),
       pyIntR (ic 1 * (1 - t) + oc 1 * t),
       pyIntR (ic 2 * (1 - t) + oc 2 * t),
       if 3 < inner_color.length then pyIntR (ic 3 * (1 - t) + oc 3 * t) else 255)
    else (0, 0, 0, 0)
  else (0, 0, 0, 0)

/-- The vignette loop inlined at the top of `generate_icon`: concentric
ellipses from `int(size * 0.55)` down in steps of 3, blending the two
background blacks. -/
def vignette_cmds (size : ℕ) : List DrawCmd :=
  let half : ℤ := (size : ℤ) / 2
  let vignette_size : ℤ := pyIntQ ((size : ℚ) * (55 / 100))
  (rangeDown vignette_size.toNat 3).map (fun (i : ℕ) =>
    let t : ℚ := (i : ℚ) / (vignette_size : ℚ)
    let color : RGBA :=
      (pyIntQ ((BLACK_SECONDARY.1 : ℚ) * t + (BLACK_PRIMARY.1 : ℚ) * (1 - t)),
       pyIntQ ((BLACK_SECONDARY.2.1 : ℚ) * t + (BLACK_PRIMARY.2.1 : ℚ) * (1 - t)),
       pyIntQ ((BLACK_SECONDARY.2.2 : ℚ) * t + (BLACK_PRIMARY.2.2 : ℚ) * (1 - t)),
       pyIntQ (255 * t))
    DrawCmd.ellipse (half - i : ℚ) (half - i : ℚ) (half + i : ℚ) (half + i : ℚ) color)

/-- Body of the first loop of `draw_circuit_pattern` (one circuit trace and
its optional node), threading the generator state. -/
def circuit_trace_step (size : ℕ) (acc : List DrawCmd × PyRng) (_ : ℕ) :
    List DrawCmd × PyRng :=
  let p1 := acc.2.randint 0 (size : ℤ)
  let x := p1.1
  let p2 := p1.2.randint 0 (size : ℤ)
  let y := p2.1
  let p3 := p2.2.randint ((size / 25 : ℕ) : ℤ) ((size / 8 : ℕ) : ℤ)
  let length := p3.1
  let p4 := p3.2.choice2 true false
  let dirH := p4.1
  let trace_color : RGBA := (0, 50, 20, 80)
  let traceCmd :=
    if dirH then
      DrawCmd.line (x : ℚ) (y : ℚ) ((min (x + length) (size : ℤ)) : ℚ) (y : ℚ) trace_color 1
    else
      DrawCmd.line (x : ℚ) (y : ℚ) (x : ℚ) ((min (y + length) (size : ℤ)) : ℚ) trace_color 1
  let p5 := p4.2.randFloat
  let rv := p5.1
  let pnode :=
    if rv > 6 / 10 then
      let p6 := p5.2.randint 2 3
      ([DrawCmd.ellipse (x - p6.1 : ℚ) (y - p6.1 : ℚ)
          (x + p6.1 : ℚ) (y + p6.1 : ℚ) (0, 70, 30, 100)], p6.2)
    else ([], p5.2)
  (acc.1 ++ [traceCmd] ++ pnode.1, pnode.2)

/-- Body of the second loop of `draw_circuit_pattern` (one brighter node). -/
def circuit_node_step (size : ℕ) (acc : List DrawCmd × PyRng) (_ : ℕ) :
    List DrawCmd × PyRng :=
  let p1 := acc.2.randint (pyIntQ ((size : ℚ) * (1 / 10))) (pyIntQ ((size : ℚ) * (9 / 10)))
  let x := p1.1
  let p2 := p1.2.randint (pyIntQ ((size : ℚ) * (1 / 10))) (pyIntQ ((size : ℚ) * (9 / 10)))
  let y := p2.1
  let p3 := p2.2.randint 1 2
  let node_size := p3.1
  (acc.1 ++ [DrawCmd.ellipse (x - node_size : ℚ) (y - node_size : ℚ)
      (x + node_size : ℚ) (y + node_size : ℚ) (0, 100, 40, 150)], p3.2)

/-- The function `draw_circuit_pattern` at the default density 0.012: it
first reseeds the generator with the fixed seed 42 (discarding the incoming
state `g0`), then draws `int(size * 0.012)` traces and `int(size * 0.003)`
bright nodes. -/
def draw_circuit_pattern (g0 : PyRng) (size : ℕ) : List DrawCmd × PyRng :=
  let g := PyRng.seed 42
  let num_traces := (pyIntQ ((size : ℚ) * (12 / 1000))).toNat
  let s1 := (List.range num_traces).foldl (circuit_trace_step size) ([], g)
  (List.range (pyIntQ ((size : ℚ) * (3 / 1000))).toNat).foldl (circuit_node_step size) s1

/-- The function `draw_metallic_face`: the list of drawing primitives it
issues, in order (base polygon, inner panel, metallic sheen lines, central
divider, left-edge highlights). -/
def draw_metallic_face (size : ℕ) : List DrawCmd :=
  let rs : ℚ := size
  let cx : ℤ := (size : ℤ) / 2
  let cy : ℤ := (size : ℤ) / 2
  let face_width : ℤ := pyIntQ (rs * (62 / 100))
  let face_height : ℤ := pyIntQ (rs * (72 / 100))
  let face_top : ℤ := cy - face_height / 2 + pyIntQ (rs * (6 / 100))
  let face_bottom : ℤ := cy + face_height / 2 - pyIntQ (rs * (2 / 100))
  let forehead_y : ℤ := face_top + pyIntQ (rs * (14 / 100))
  let chin_y : ℤ := face_bottom - pyIntQ (rs * (6 / 100))
  let chin_width : ℤ := pyIntQ ((face_width : ℚ) * (22 / 100))
  let face_left : ℤ := cx - face_width / 2
  let face_right : ℤ := cx + face_width / 2
  let face_points : List (ℚ × ℚ) := [
    ((cx : ℚ), (face_top : ℚ)),
    ((face_right - pyIntQ (rs * (4 / 100)) : ℚ), (forehead_y : ℚ)),
    ((face_right : ℚ), (cy - pyIntQ (rs * (6 / 100)) : ℚ)),
    ((face_right - pyIntQ (rs * (2 / 100)) : ℚ), (cy + pyIntQ (rs * (12 / 100)) : ℚ)),
    ((cx + chin_width + pyIntQ (rs * (4 / 100)) : ℚ), (chin_y : ℚ)),
    ((cx : ℚ), (face_bottom : ℚ)),
    ((cx - chin_width - pyIntQ (rs * (4 / 100)) : ℚ), (chin_y : ℚ)),
    ((face_left + pyIntQ (rs * (2 / 100)) : ℚ), (cy + pyIntQ (rs * (12 / 100)) : ℚ)),
    ((face_left : ℚ), (cy - pyIntQ (rs * (6 / 100)) : ℚ)),
    ((face_left + pyIntQ (rs * (4 / 100)) : ℚ), (forehead_y : ℚ))]
  let inner_offset_y : ℤ := pyIntQ (rs * (8 / 1000))
  let inner_points : List (ℚ × ℚ) := face_points.map (fun p =>
    ((cx : ℚ) + (p.1 - cx) * (88 / 100),
     (cy : ℚ) + (p.2 - cy) * (88 / 100) + inner_offset_y))
  let highlight_y : ℤ := cy - pyIntQ (rs * (10 / 100))
  let highlight_width : ℤ := pyIntQ (rs * (28 / 100))
  let highlight_height : ℤ := pyIntQ (rs * (25 / 1000))
  let sheen := (List.range highlight_height.toNat).map (fun (i : ℕ) =>
    let progress : ℚ := (i : ℚ) / (highlight_height : ℚ)
    let alpha : ℤ := pyIntQ (25 * (1 - progress * (8 / 10)))
    let y : ℤ := highlight_y - highlight_height / 2 + (i : ℤ)
    let w : ℚ := (highlight_width : ℚ) * (1 - progress * (5 / 10))
    DrawCmd.line ((cx : ℚ) - w) (y : ℚ) ((cx : ℚ) + w) (y : ℚ)
      (LIGHT_GRAY.1, LIGHT_GRAY.2.1, LIGHT_GRAY.2.2, alpha) 1)
  let line_y_start : ℤ := face_top + pyIntQ (rs * (16 / 100))
  let line_y_end : ℤ := chin_y - pyIntQ (rs * (3 / 100))
  let central := DrawCmd.line (cx : ℚ) (line_y_start : ℚ) (cx : ℚ) (line_y_end : ℚ)
    (rgbFill (70, 75, 85)) (max 2 ((size : ℤ) / 180))
  let edge := (List.range 3).map (fun (i : ℕ) =>
    let p := face_points.getD (7 + i) ((0 : ℚ), (0 : ℚ))
    let np := face_points.getD ((i + 1) % 3 + 7) ((0 : ℚ), (0 : ℚ))
    DrawCmd.line (p.1 + 2) p.2 (np.1 + 2) np.2
      (LIGHT_GRAY.1, LIGHT_GRAY.2.1, LIGHT_GRAY.2.2, 60) 1)
  [DrawCmd.polygon face_points (rgbFill DARK_GRAY),
   DrawCmd.polygon inner_points (rgbFill MID_GRAY)] ++ sheen ++ [central] ++ edge

/-- The function `draw_forehead_gem`: glow ellipses, gem diamond, inner
highlight, specular dot. -/
def draw_forehead_gem (size : ℕ) : List DrawCmd :=
  let rs : ℚ := size
  let cx : ℤ := (size : ℤ) / 2
  let cy : ℤ := (size : ℤ) / 2
  let face_top : ℤ := cy - pyIntQ (rs * (36 / 100)) + pyIntQ (rs * (6 / 100))
  let gem_y : ℤ := face_top + pyIntQ (rs * (16 / 100))
  let gem_size : ℤ := pyIntQ (rs * (38 / 1000))
  let glow := (rangeDown 5 1).map (fun (i : ℕ) =>
    let radius : ℚ := (gem_size : ℚ) * (12 / 10) * ((i : ℚ) / 5)
    let alpha : ℤ := pyIntQ (20 * ((i : ℚ) / 5))
    DrawCmd.ellipse ((cx : ℚ) - radius) ((gem_y : ℚ) - radius)
      ((cx : ℚ) + radius) ((gem_y : ℚ) + radius)
      (PURPLE_GLOW.1, PURPLE_GLOW.2.1, PURPLE_GLOW.2.2, alpha))
  let gem_points : List (ℚ × ℚ) := [
    ((cx : ℚ), (gem_y - gem_size : ℚ)),
    ((cx + gem_size : ℚ), (gem_y : ℚ)),
    ((cx : ℚ), (gem_y + gem_size : ℚ)),
    ((cx - gem_size : ℚ), (gem_y : ℚ))]
  let highlight_size : ℚ := (gem_size : ℚ) * (55 / 100)
  let highlight_points : List (ℚ × ℚ) := [
    ((cx : ℚ), (gem_y - gem_size + 2 : ℚ)),
    ((cx : ℚ) + highlight_size * (7 / 10), (gem_y : ℚ) - highlight_size * (2 / 10)),
    ((cx : ℚ), (gem_y : ℚ) + highlight_size * (3 / 10)),
    ((cx : ℚ) - highlight_size * (7 / 10), (gem_y : ℚ) - highlight_size * (2 / 10))]
  let spec_size : ℤ := pyIntQ ((gem_size : ℚ) * (18 / 100))
  let spec_y : ℚ := (gem_y : ℚ) - (gem_size : ℚ) * (35 / 100)
  glow ++
  [DrawCmd.polygon gem_points (rgbFill PURPLE_PRIMARY),
   DrawCmd.polygon highlight_points (rgbFill PURPLE_SECONDARY),
   DrawCmd.ellipse (cx - spec_size : ℚ) (spec_y - spec_size)
     (cx + spec_size : ℚ) (spec_y + spec_size) (220, 200, 255, 180)]

/-- The per-layer color of the eye gradient layers in `draw_luminous_eyes`
(the source's `layer_color` with its `brightness`). -/
def layerColor (layer : ℕ) : ℤ × ℤ × ℤ :=
  let brightness : ℤ := min 255 (GREEN_NEON.2.1 + (layer : ℤ) * 30)
  (min 255 (100 + (layer : ℤ) * 50), brightness, min 255 (80 + (layer : ℤ) * 40))

/-- The function `draw_luminous_eyes`: for each of the two eyes, the socket,
the almond polygon, three gradient layers, the bright core and the hot
spot, in order. -/
def draw_luminous_eyes (size : ℕ) : List DrawCmd :=
  let rs : ℚ := size
  let cx : ℤ := (size : ℤ) / 2
  let cy : ℤ := (size : ℤ) / 2
  let eye_y : ℤ := cy - pyIntQ (rs * (15 / 1000))
  let eye_spacing : ℤ := pyIntQ (rs * (155 / 1000))
  let eye_width : ℤ := pyIntQ (rs * (115 / 1000))
  let eye_height : ℤ := pyIntQ (rs * (38 / 1000))
  ([cx - eye_spacing, cx + eye_spacing]).flatMap (fun eye_x =>
    let socket_w : ℤ := eye_width + pyIntQ (rs * (15 / 1000))
    let socket_h : ℤ := eye_height + pyIntQ (rs * (15 / 1000))
    let socket := DrawCmd.ellipse (eye_x - socket_w : ℚ) (eye_y - socket_h : ℚ)
      (eye_x + socket_w : ℚ) (eye_y + socket_h : ℚ) (rgbFill (8, 8, 10))
    let eye_points : List (ℚ × ℚ) := [
      ((eye_x - eye_width : ℚ), (eye_y : ℚ)),
      ((eye_x : ℚ) - (eye_width : ℚ) * (55 / 100), (eye_y - eye_height : ℚ)),
      ((eye_x : ℚ) + (eye_width : ℚ) * (55 / 100), (eye_y - eye_height : ℚ)),
      ((eye_x + eye_width : ℚ), (eye_y : ℚ)),
      ((eye_x : ℚ) + (eye_width : ℚ) * (55 / 100), (eye_y + eye_height : ℚ)),
      ((eye_x : ℚ) - (eye_width : ℚ) * (55 / 100), (eye_y + eye_height : ℚ))]
    let mainPoly := DrawCmd.polygon eye_points (rgbFill GREEN_BRIGHT)
    let layers := (List.range 3).map (fun (layer : ℕ) =>
      let scale : ℚ := (85 / 100) - (layer : ℚ) * (15 / 100)
      let layer_points := eye_points.map (fun p =>
        ((eye_x : ℚ) + (p.1 - eye_x) * scale, (eye_y : ℚ) + (p.2 - eye_y) * scale))
      DrawCmd.polygon layer_points (rgbFill (layerColor layer)))
    let core_w : ℚ := (eye_width : ℚ) * (35 / 100)
    let core_h : ℚ := (eye_height : ℚ) * (5 / 10)
    let core := DrawCmd.ellipse ((eye_x : ℚ) - core_w) ((eye_y : ℚ) - core_h)
      ((eye_x : ℚ) + core_w) ((eye_y : ℚ) + core_h) (rgbFill (220, 255, 220))
    let hot_size : ℤ := pyIntQ (rs * (8 / 1000))
    let hot_x : ℚ := (eye_x : ℚ) - (eye_width : ℚ) * (2 / 10)
    let hot_y : ℚ := (eye_y : ℚ) - (eye_height : ℚ) * (3 / 10)
    let hot := DrawCmd.ellipse (hot_x - hot_size) (hot_y - hot_size)
      (hot_x + hot_size) (hot_y + hot_size) (255, 255, 255, 200)
    [socket, mainPoly] ++ layers ++ [core, hot])

/-- The function `add_face_details`: the two cheek accent lines and the
two status indicators (glow rings, core, bright center). -/
def add_face_details (size : ℕ) : List DrawCmd :=
  let rs : ℚ := size
  let cx : ℤ := (size : ℤ) / 2
  let cy : ℤ := (size : ℤ) / 2
  let line_width : ℤ := max 1 ((size : ℤ) / 350)
  let cheek_offset : ℤ := pyIntQ (rs * (20 / 100))
  let cheek_y : ℤ := cy + pyIntQ (rs * (6 / 100))
  let leftCheek := DrawCmd.line
    (cx - cheek_offset - pyIntQ (rs * (4 / 100)) : ℚ) (cheek_y - pyIntQ (rs * (2 / 100)) : ℚ)
    (cx - cheek_offset + pyIntQ (rs * (1 / 100)) : ℚ) (cheek_y + pyIntQ (rs * (8 / 100)) : ℚ)
    (45, 48, 55, 180) line_width
  let rightCheek := DrawCmd.line
    (cx + cheek_offset + pyIntQ (rs * (4 / 100)) : ℚ) (cheek_y - pyIntQ (rs * (2 / 100)) : ℚ)
    (cx + cheek_offset - pyIntQ (rs * (1 / 100)) : ℚ) (cheek_y + pyIntQ (rs * (8 / 100)) : ℚ)
    (45, 48, 55, 180) line_width
  let indicator_y : ℤ := cy + pyIntQ (rs * (10 / 100))
  let indicator_size : ℤ := pyIntQ (rs * (11 / 1000))
  let indicators := ([-(75 / 1000), (75 / 1000)] : List ℚ).flatMap (fun x_offset =>
    let ix : ℤ := cx + pyIntQ (rs * x_offset)
    let glows := (rangeDown 5 1).map (fun (i : ℕ) =>
      let r : ℤ := indicator_size + i
      let alpha : ℤ := pyIntQ (30 * ((i : ℚ) / 5))
      DrawCmd.ellipse (ix - r : ℚ) (indicator_y - r : ℚ) (ix + r : ℚ) (indicator_y + r : ℚ)
        (0, 200, 100, alpha))
    let core := DrawCmd.ellipse (ix - indicator_size : ℚ) (indicator_y - indicator_size : ℚ)
      (ix + indicator_size : ℚ) (indicator_y + indicator_size : ℚ) (rgbFill GREEN_GLOW)
    let tiny : ℤ := indicator_size / 2
    let tinyCmd := DrawCmd.ellipse (ix - tiny : ℚ) (indicator_y - tiny : ℚ)
      (ix + tiny : ℚ) (indicator_y + tiny : ℚ) (rgbFill (200, 255, 200))
    glows ++ [core, tinyCmd])
  [leftCheek, rightCheek] ++ indicators

/-- The bright eye shapes drawn on the glow layer in `add_eye_glow`. -/
def glow_cmds (size : ℕ) : List DrawCmd :=
  let rs : ℚ := size
  let cx : ℤ := (size : ℤ) / 2
  let cy : ℤ := (size : ℤ) / 2
  let eye_y : ℤ := cy - pyIntQ (rs * (15 / 1000))
  let eye_spacing : ℤ := pyIntQ (rs * (155 / 1000))
  let eye_width : ℤ := pyIntQ (rs * (115 / 1000))
  ([cx - eye_spacing, cx + eye_spacing]).map (fun eye_x =>
    let glow_w : ℚ := (eye_width : ℚ) * (12 / 10)
    let glow_h : ℚ := (pyIntQ (rs * (38 / 1000)) : ℚ) * (12 / 10)
    DrawCmd.ellipse ((eye_x : ℚ) - glow_w) ((eye_y : ℚ) - glow_h)
      ((eye_x : ℚ) + glow_w) ((eye_y : ℚ) + glow_h) (0, 255, 80, 180))

/-- The function `add_eye_glow`: blur the glow layer by `size // 25`, make
sure the base is RGBA, and alpha-composite the glow over it. -/
def add_eye_glow (img : Img) (size : ℕ) : Img :=
  let glow := Img.gaussianBlur
    (Img.draw Phase.glow (Img.new size size (0, 0, 0, 0)) (glow_cmds size)) (size / 25)
  let base := if mode img = PilMode.RGBA then img else Img.convertRGBA img
  Img.alphaComposite base glow

/-- The function `generate_icon`: the image it returns, together with the
generator state after the call (the script's generator is module-global
state, made explicit here). -/
def generate_icon (g : PyRng) (size : ℕ) : Img × PyRng :=
  let img0 := Img.new size size (rgbFill BLACK_PRIMARY)
  let img1 := Img.draw Phase.background img0 (vignette_cmds size)
  let cp := if 256 ≤ size then draw_circuit_pattern g size else ([], g)
  let img2 := if 256 ≤ size then Img.draw Phase.circuit img1 cp.1 else img1
  let img3 := Img.draw Phase.face img2 (draw_metallic_face size)
  let img4 := Img.draw Phase.gem img3 (draw_forehead_gem size)
  let img5 := Img.draw Phase.eyes img4 (draw_luminous_eyes size)
  let img6 := Img.draw Phase.details img5 (add_face_details size)
  let img7 := add_eye_glow img6 size
  let img8 := if 256 ≤ size then
      Img.sharpness (Img.contrast img7 (108 / 100)) (115 / 100)
    else img7
  (Img.convertRGB img8, cp.2)

/-- The sizes table of `generate_all_sizes`, in insertion order. -/
def sizes : List (String × ℕ) :=
  [("AppIcon-1024.png", 1024), ("AppIcon-180.png", 180), ("AppIcon-120.png", 120),
   ("AppIcon-167.png", 167), ("AppIcon-152.png", 152), ("AppIcon-76.png", 76),
   ("AppIcon-87.png", 87), ("AppIcon-80.png", 80), ("AppIcon-60.png", 60),
   ("AppIcon-40.png", 40)]

/-- A JSON value, as written to Contents.json. -/
inductive JVal where
  | str (s : String)
  | num (n : ℤ)
  | arr (xs : List JVal)
  | obj (fields : List (String × JVal))

/-- An effect performed by the program: directory creation, saving a PNG
under a filename, or writing the manifest document. -/
inductive Event where
  | makedirs
  | save (filename : String) (img : Img)
  | writeManifest (doc : JVal)

/-- The image `generate_all_sizes` saves for a requested size: the master
itself at 1024, otherwise the master downscaled (LANCZOS) to the size. -/
def icon_for (master : Img) (s : ℕ) : Img :=
  if s = 1024 then master else Img.resize master s s

/-- The function `generate_all_sizes`: its effect trace (makedirs, then one
save per table entry in order), the filename list it returns, and the
final generator state.  The master is rendered once at 1024. -/
def generate_all_sizes (g : PyRng) : List Event × List String × PyRng :=
  let master := generate_icon g 1024
  (Event.makedirs :: sizes.map (fun fs => Event.save fs.1 (icon_for master.1 fs.2)),
   sizes.map Prod.fst, master.2)

/-- The specs table of `generate_contents_json`: (filename, size, scale,
idiom), in order. -/
def specs : List (String × String × String × String) :=
  [("AppIcon-40.png", "20x20", "2x", "iphone"),
   ("AppIcon-60.png", "20x20", "3x", "iphone"),
   ("AppIcon-60.png", "29x29", "2x", "iphone"),
   ("AppIcon-87.png", "29x29", "3x", "iphone"),
   ("AppIcon-80.png", "40x40", "2x", "iphone"),
   ("AppIcon-120.png", "40x40", "3x", "iphone"),
   ("AppIcon-120.png", "60x60", "2x", "iphone"),
   ("AppIcon-180.png", "60x60", "3x", "iphone"),
   ("AppIcon-40.png", "20x20", "1x", "ipad"),
   ("AppIcon-40.png", "20x20", "2x", "ipad"),
   ("AppIcon-60.png", "29x29", "1x", "ipad"),
   ("AppIcon-60.png", "29x29", "2x", "ipad"),
   ("AppIcon-40.png", "40x40", "1x", "ipad"),
   ("AppIcon-80.png", "40x40", "2x", "ipad"),
   ("AppIcon-76.png", "76x76", "1x", "ipad"),
   ("AppIcon-152.png", "76x76", "2x", "ipad"),
   ("AppIcon-167.png", "83.5x83.5", "2x", "ipad"),
   ("AppIcon-1024.png", "1024x1024", "1x", "ios-marketing")]

/-- The entries of the manifest's `images` list: one object per specs row,
with the dict keys in the source's literal order. -/
def contents_images : List JVal :=
  specs.map (fun t => JVal.obj
    [("filename", JVal.str t.1), ("idiom", JVal.str t.2.2.2),
     ("scale", JVal.str t.2.2.1), ("size", JVal.str t.2.1)])

/-- The function `generate_contents_json`: the JSON document it writes.
Its `filenames` parameter is not used by the body. -/
def generate_contents_json (filenames : List String) : JVal :=
  JVal.obj [("images", JVal.arr contents_images),
            ("info", JVal.obj [("author", JVal.str "xcode"), ("version", JVal.num 1)])]

/-- The function `main`: the full effect trace of one invocation —
`generate_all_sizes` followed by writing the manifest for the returned
filename list. -/
def main_events (g : PyRng) : List Event :=
  let gas := generate_all_sizes g
  gas.1 ++ [Event.writeManifest (generate_contents_json gas.2.1)]

/-- The keys of a JSON object, in order (empty for non-objects). -/
def jKeys : JVal → List String
  | .obj l => l.map Prod.fst
  | _ => []

/-- Field lookup in a JSON object. -/
def jGet (k : String) : JVal → Option JVal
  | .obj l => l.lookup k
  | _ => none

/-- The string value of an entry's `filename` field, when present. -/
def jFilename (v : JVal) : Option String :=
  match jGet "filename" v with
  | some (.str s) => some s
  | _ => none

/-- The elements of the document's `images` list. -/
def imagesList (v : JVal) : List JVal :=
  match jGet "images" v with
  | some (.arr l) => l
  | _ => []

/-- Whether a JSON value is a string. -/
def jIsStr : JVal → Bool
  | .str _ => true
  | _ => false

/-- Whether a JSON value is an array all of whose elements are strings. -/
def isStringArray : JVal → Bool
  | .arr xs => xs.all jIsStr
  | _ => false

/-- Whether a JSON value is an object all of whose field values are
strings. -/
def objValsAreStrings : JVal → Bool
  | .obj l => l.all (fun p => jIsStr p.2)
  | _ => false

/-- The library calls of one invocation, in program order (for the
exception-propagation claim). -/
inductive LibCall where
  | makedirsCall
  | saveCall (filename : String)
  | writeJsonCall
deriving DecidableEq

/-- The library call an event performs. -/
def eventCall : Event → LibCall
  | .makedirs => .makedirsCall
  | .save f _ => .saveCall f
  | .writeManifest _ => .writeJsonCall

/-- An environment assigning to each library call either success (`none`)
or the exception value it raises (`some e`). -/
structure LibEnv (E : Type) where
  outcome : LibCall → Option E

/-- Run a sequence of effectful steps under an environment: each step
either succeeds and execution continues, or raises, in which case no
further step is performed (the program installs no handler) and the
exception value is returned as is. -/
def runSteps {E : Type} (env : LibEnv E) : List Event → List Event × Option E
  | [] => ([], none)
  | e :: es =>
    match env.outcome (eventCall e) with
    | some err => ([], some err)
    | none =>
      let r := runSteps env es
      (e :: r.1, r.2)

/-- One invocation of `main` under an environment of library outcomes. -/
def runMainExc {E : Type} (env : LibEnv E) (g : PyRng) : List Event × Option E :=
  runSteps env (main_events g)

/-- The first exception any call of a step sequence would raise. -/
def firstRaised {E : Type} (env : LibEnv E) (es : List Event) : Option E :=
  es.findSome? (fun e => env.outcome (eventCall e))

/-- A color channel bound: all four channels in `[0, 255]`. -/
def colorOK (c : RGBA) : Prop :=
  0 ≤ c.1 ∧ c.1 ≤ 255 ∧ 0 ≤ c.2.1 ∧ c.2.1 ≤ 255 ∧
  0 ≤ c.2.2.1 ∧ c.2.2.1 ≤ 255 ∧ 0 ≤ c.2.2.2 ∧ c.2.2.2 ≤ 255

instance (c : RGBA) : Decidable (colorOK c) := by
  unfold colorOK; infer_instance

/-- The fill color of a drawing primitive. -/
def cmdColor : DrawCmd → RGBA
  | .line _ _ _ _ col _ => col
  | .ellipse _ _ _ _ col => col
  | .polygon _ col => col

/-- Every drawing primitive of a list has its fill channels in range. -/
def allColorsOK (l : List DrawCmd) : Prop :=
  ∀ c ∈ l, colorOK (cmdColor c)

/-! ### Helper lemmas -/

/-- `draw_circuit_pattern` reseeds with the fixed seed 42 before any draw,
so its result does not depend on the incoming generator state. -/
lemma draw_circuit_pattern_ignores (g g' : PyRng) (s : ℕ) :
    draw_circuit_pattern g s = draw_circuit_pattern g' s := rfl

lemma generate_icon_fst_ignores (g g' : PyRng) (size : ℕ) :
    (generate_icon g size).1 = (generate_icon g' size).1 := by
  by_cases h : 256 ≤ size <;>
    simp [generate_icon, h, draw_circuit_pattern_ignores g g' size]

lemma main_events_ignores (g g' : PyRng) : main_events g = main_events g' := by
  have h := generate_icon_fst_ignores g g' 1024
  simp [main_events, generate_all_sizes, h]

lemma dims_generate_icon (g : PyRng) (size : ℕ) :
    dims (generate_icon g size).1 = (size, size) := by
  by_cases h : 256 ≤ size <;> simp [generate_icon, add_eye_glow, h, dims, mode]

lemma runSteps_eq {E : Type} (env : LibEnv E) (l : List Event) :
    runSteps env l =
      (l.takeWhile (fun e => (env.outcome (eventCall e)).isNone),
       l.findSome? (fun e => env.outcome (eventCall e))) := by
  induction l with
  | nil => rfl
  | cons e es ih =>
    cases h : env.outcome (eventCall e) with
    | none => simp [runSteps, h, List.takeWhile_cons, List.findSome?_cons, ih]
    | some err => simp [runSteps, h, List.takeWhile_cons, List.findSome?_cons]

/-! ### The claims -/

/-- C1: icon generation is deterministic: two invocations from any two
generator states produce the same image at every size, and the whole
program's effect trace is the same, because the only pseudorandom
generator is reseeded with the fixed seed 42 inside
`draw_circuit_pattern` before use. -/
theorem adjutant_c1 (g1 g2 : PyRng) (size : ℕ) :
    (generate_icon g1 size).1 = (generate_icon g2 size).1
    ∧ main_events g1 = main_events g2 :=
  ⟨generate_icon_fst_ignores g1 g2 size, main_events_ignores g1 g2⟩

/-- C3: for every (filename, size) pair of the sizes table, the program
saves under that filename an image whose dimensions are exactly
size × size. -/
theorem adjutant_c3 (g : PyRng) :
    ∀ fs ∈ sizes,
      Event.save fs.1 (icon_for (generate_icon g 1024).1 fs.2) ∈ main_events g
      ∧ dims (icon_for (generate_icon g 1024).1 fs.2) = (fs.2, fs.2) := by
  intro fs hfs
  constructor
  · have hmem : Event.save fs.1 (icon_for (generate_icon g 1024).1 fs.2) ∈
        (generate_all_sizes g).1 := by
      simp only [generate_all_sizes]
      exact List.mem_cons_of_mem _ (List.mem_map_of_mem _ hfs)
    simp only [main_events]
    exact List.mem_append_left _ hmem
  · unfold icon_for
    by_cases h : fs.2 = 1024
    · simp [h, dims_generate_icon]
    · simp [h, dims]

/-- C4: one linear pipeline per invocation: the master is rendered once at
1024 × 1024 through the phases background → circuit → face → gem → eyes →
details → glow → contrast → sharpen → convert (in that order); every
output is that master saved directly (at 1024) or downscaled from it
(never re-rendered at the target size); the manifest write is the last
event, after all saves. -/
theorem adjutant_c4 (g : PyRng) :
    phasesOf (generate_icon g 1024).1 =
      [Phase.background, Phase.circuit, Phase.face, Phase.gem, Phase.eyes,
       Phase.details, Phase.glow, Phase.contrastEnhance, Phase.sharpenEnhance,
       Phase.convert]
    ∧ main_events g =
        (Event.makedirs ::
          sizes.map (fun fs => Event.save fs.1 (icon_for (generate_icon g 1024).1 fs.2)))
          ++ [Event.writeManifest (generate_contents_json (sizes.map Prod.fst))]
    ∧ (∀ fs ∈ sizes, fs.2 ≠ 1024 →
        icon_for (generate_icon g 1024).1 fs.2 =
          Img.resize (generate_icon g 1024).1 fs.2 fs.2)
    ∧ icon_for (generate_icon g 1024).1 1024 = (generate_icon g 1024).1 := by
  refine ⟨?_, rfl, ?_, ?_⟩
  · simp [generate_icon, add_eye_glow, phasesOf, mode]
  · intro fs _ h; simp [icon_for, h]
  · simp [icon_for]

/-- C5: the manifest's `images` list is exactly the 18 spec entries, every
entry is an object with exactly the four keys filename, idiom, scale and
size (in that order), and every filename appearing in the manifest is one
of the ten filenames `generate_all_sizes` produces. -/
theorem adjutant_c5 (fns : List String) :
    jGet "images" (generate_contents_json fns) = some (JVal.arr contents_images)
    ∧ contents_images.map jKeys =
        List.replicate 18 ["filename", "idiom", "scale", "size"]
    ∧ ∀ fn ∈ contents_images.filterMap jFilename, fn ∈ sizes.map Prod.fst := by
  refine ⟨rfl, rfl, ?_⟩
  decide

/-- C6 counterexample: the JSON document emitted by
`generate_contents_json` is not a list whose elements are strings (it is
an object). -/
theorem adjutant_c6_counterexample :
    isStringArray (generate_contents_json []) = false := rfl

/-- C6 (amended): the document emitted by `generate_contents_json` is
fixed (input-independent), but it is a JSON object with the two members
`images` and `info` — the string values sit inside the per-image objects
of the `images` list — not a bare list of strings. -/
theorem adjutant_c6 (l1 l2 : List String) :
    generate_contents_json l1 = generate_contents_json l2
    ∧ jKeys (generate_contents_json l1) = ["images", "info"]
    ∧ isStringArray (generate_contents_json l1) = false
    ∧ contents_images.all objValsAreStrings = true :=
  ⟨rfl, rfl, rfl, rfl⟩

/-- C7: there are no failure recovery paths: under any assignment of
outcomes to the library calls, the run performs exactly the successful
prefix of the pipeline's steps, stops at the first call that raises, and
returns that call's exception value unchanged. -/
theorem adjutant_c7 {E : Type} (env : LibEnv E) (g : PyRng) :
    runMainExc env g =
      ((main_events g).takeWhile (fun e => (env.outcome (eventCall e)).isNone),
       firstRaised env (main_events g)) := by
  simpa [runMainExc, firstRaised] using runSteps_eq env (main_events g)

/-- C8: `generate_icon` returns an image converted to three-channel RGB
(no alpha), for every size, and consequently every image the program
saves is in RGB mode. -/
theorem adjutant_c8 (g : PyRng) (size : ℕ) :
    mode (generate_icon g size).1 = PilMode.RGB
    ∧ ∀ fs ∈ sizes, mode (icon_for (generate_icon g 1024).1 fs.2) = PilMode.RGB := by
  refine ⟨rfl, ?_⟩
  intro fs _
  unfold icon_for
  split <;> rfl

/-- C9: `generate_contents_json` ignores its `filenames` parameter: the
document is the same for any two argument lists, its `images` list is
exactly the 18 objects built from the hard-coded specs table, and its
`info` member holds author xcode and version 1. -/
theorem adjutant_c9 (l1 l2 : List String) :
    generate_contents_json l1 = generate_contents_json l2
    ∧ imagesList (generate_contents_json l1) = contents_images
    ∧ contents_images.length = 18
    ∧ jGet "info" (generate_contents_json l1) =
        some (JVal.obj [("author", JVal.str "xcode"), ("version", JVal.num 1)]) :=
  ⟨rfl, rfl, rfl, rfl⟩

/-! ### Range lemmas for the drawing arithmetic -/

lemma pyIntQ_nonneg {q : ℚ} (h : 0 ≤ q) : 0 ≤ pyIntQ q := by
  rw [pyIntQ, if_pos h]
  exact Int.le_floor.mpr (by exact_mod_cast h)

lemma pyIntQ_range {q : ℚ} (h0 : 0 ≤ q) (h1 : q ≤ 255) :
    0 ≤ pyIntQ q ∧ pyIntQ q ≤ 255 := by
  rw [pyIntQ, if_pos h0]
  refine ⟨Int.le_floor.mpr (by exact_mod_cast h0), ?_⟩
  have h : (⌊q⌋ : ℚ) ≤ 255 := le_trans (Int.floor_le q) h1
  exact_mod_cast h

lemma mem_rangeDown {s st j : ℕ} (hst : 0 < st) (h : j ∈ rangeDown s st) :
    1 ≤ j ∧ j ≤ s := by
  simp only [rangeDown, List.mem_map, List.mem_range] at h
  obtain ⟨k, hk, rfl⟩ := h
  have h1 : (s + st - 1) / st * st ≤ s + st - 1 := Nat.div_mul_le_self _ _
  have h2 : (k + 1) * st ≤ (s + st - 1) / st * st := Nat.mul_le_mul_right _ hk
  have h3 : k * st + st ≤ s + st - 1 := by
    calc k * st + st = (k + 1) * st := by ring
    _ ≤ (s + st - 1) / st * st := h2
    _ ≤ s + st - 1 := h1
  have h4 : st * k = k * st := Nat.mul_comm st k
  constructor <;> omega

lemma allColorsOK_nil : allColorsOK [] := by
  intro c hc
  cases hc

lemma allColorsOK_append {l1 l2 : List DrawCmd}
    (h1 : allColorsOK l1) (h2 : allColorsOK l2) : allColorsOK (l1 ++ l2) := by
  intro c hc
  rcases List.mem_append.mp hc with h | h
  exacts [h1 c h, h2 c h]

lemma foldl_preserve {α β : Type _} (f : β → α → β) (P : β → Prop)
    (hstep : ∀ b a, P b → P (f b a)) :
    ∀ (l : List α) (b : β), P b → P (l.foldl f b) := by
  intro l
  induction l with
  | nil => exact fun b h => h
  | cons a t ih => exact fun b h => ih _ (hstep b a h)

lemma layerColor_ok (layer : ℕ) : colorOK (rgbFill (layerColor layer)) := by
  simp only [rgbFill, layerColor, colorOK, GREEN_NEON]
  refine ⟨?_, ?_, ?_, ?_, ?_, ?_, ?_, ?_⟩ <;> omega

lemma circuit_trace_step_ok (size : ℕ) (acc : List DrawCmd × PyRng) (n : ℕ)
    (h : allColorsOK acc.1) : allColorsOK (circuit_trace_step size acc n).1 := by
  simp only [circuit_trace_step]
  refine allColorsOK_append (allColorsOK_append h ?_) ?_
  · intro c hc
    simp only [List.mem_singleton] at hc
    subst hc
    split <;> (simp only [cmdColor]; decide)
  · split
    · intro c hc
      simp only [List.mem_singleton] at hc
      subst hc
      simp only [cmdColor]
      decide
    · exact allColorsOK_nil

lemma circuit_node_step_ok (size : ℕ) (acc : List DrawCmd × PyRng) (n : ℕ)
    (h : allColorsOK acc.1) : allColorsOK (circuit_node_step size acc n).1 := by
  simp only [circuit_node_step]
  refine allColorsOK_append h ?_
  intro c hc
  simp only [List.mem_singleton] at hc
  subst hc
  simp only [cmdColor]
  decide

lemma circuit_ok (g : PyRng) (size : ℕ) :
    allColorsOK (draw_circuit_pattern g size).1 := by
  unfold draw_circuit_pattern
  apply foldl_preserve _ (fun acc => allColorsOK acc.1)
    (fun b a hb => circuit_node_step_ok size b a hb)
  apply foldl_preserve _ (fun acc => allColorsOK acc.1)
    (fun b a hb => circuit_trace_step_ok size b a hb)
  exact allColorsOK_nil

lemma vignette_color_ok {t : ℚ} (ht0 : 0 ≤ t) (ht1 : t ≤ 1) (a b : ℤ)
    (ha : 0 ≤ a ∧ a ≤ 255) (hb : 0 ≤ b ∧ b ≤ 255) :
    0 ≤ pyIntQ ((a : ℚ) * t + (b : ℚ) * (1 - t))
    ∧ pyIntQ ((a : ℚ) * t + (b : ℚ) * (1 - t)) ≤ 255 := by
  have ha0 : (0 : ℚ) ≤ (a : ℚ) := by exact_mod_cast ha.1
  have ha1 : (a : ℚ) ≤ 255 := by exact_mod_cast ha.2
  have hb0 : (0 : ℚ) ≤ (b : ℚ) := by exact_mod_cast hb.1
  have hb1 : (b : ℚ) ≤ 255 := by exact_mod_cast hb.2
  apply pyIntQ_range
  · nlinarith
  · nlinarith

lemma vignette_ok (size : ℕ) : allColorsOK (vignette_cmds size) := by
  intro c hc
  simp only [vignette_cmds, List.mem_map] at hc
  obtain ⟨i, hi, rfl⟩ := hc
  have hb := mem_rangeDown (by norm_num) hi
  have hvs0 : (0 : ℤ) ≤ pyIntQ ((size : ℚ) * (55 / 100)) := pyIntQ_nonneg (by positivity)
  have hv1 : (1 : ℤ) ≤ pyIntQ ((size : ℚ) * (55 / 100)) := by omega
  have hit : (i : ℤ) ≤ pyIntQ ((size : ℚ) * (55 / 100)) := by omega
  set t : ℚ := (i : ℚ) / ((pyIntQ ((size : ℚ) * (55 / 100)) : ℤ) : ℚ) with hts
  have hvq : (1 : ℚ) ≤ ((pyIntQ ((size : ℚ) * (55 / 100)) : ℤ) : ℚ) := by exact_mod_cast hv1
  have ht0 : 0 ≤ t := by rw [hts]; positivity
  have ht1 : t ≤ 1 := by
    rw [hts, div_le_one (by linarith)]
    exact_mod_cast hit
  simp only [cmdColor, colorOK]
  have h1 := vignette_color_ok ht0 ht1 BLACK_SECONDARY.1 BLACK_PRIMARY.1 (by decide) (by decide)
  have h2 := vignette_color_ok ht0 ht1 BLACK_SECONDARY.2.1 BLACK_PRIMARY.2.1 (by decide) (by decide)
  have h3 := vignette_color_ok ht0 ht1 BLACK_SECONDARY.2.2 BLACK_PRIMARY.2.2 (by decide) (by decide)
  have h4 := pyIntQ_range (show (0 : ℚ) ≤ 255 * t by positivity) (by nlinarith)
  exact ⟨h1.1, h1.2, h2.1, h2.2, h3.1, h3.2, h4.1, h4.2⟩

lemma face_ok (size : ℕ) : allColorsOK (draw_metallic_face size) := by
  simp only [draw_metallic_face]
  refine allColorsOK_append (allColorsOK_append (allColorsOK_append ?_ ?_) ?_) ?_
  · intro c hc
    simp only [List.mem_cons, List.not_mem_nil, or_false] at hc
    rcases hc with rfl | rfl
    · simp only [cmdColor]; decide
    · simp only [cmdColor]; decide
  · intro c hc
    simp only [List.mem_map, List.mem_range] at hc
    obtain ⟨i, hi, rfl⟩ := hc
    have hh0 : (0 : ℤ) ≤ pyIntQ ((size : ℚ) * (25 / 1000)) := pyIntQ_nonneg (by positivity)
    have hilt : (i : ℤ) < pyIntQ ((size : ℚ) * (25 / 1000)) := by omega
    have hh1 : (1 : ℤ) ≤ pyIntQ ((size : ℚ) * (25 / 1000)) := by omega
    set p : ℚ := (i : ℚ) / ((pyIntQ ((size : ℚ) * (25 / 1000)) : ℤ) : ℚ) with hps
    have hhq : (1 : ℚ) ≤ ((pyIntQ ((size : ℚ) * (25 / 1000)) : ℤ) : ℚ) := by exact_mod_cast hh1
    have hp0 : 0 ≤ p := by rw [hps]; positivity
    have hp1 : p ≤ 1 := by
      rw [hps, div_le_one (by linarith)]
      have hlt : (i : ℚ) < ((pyIntQ ((size : ℚ) * (25 / 1000)) : ℤ) : ℚ) := by exact_mod_cast hilt
      linarith
    simp only [cmdColor, colorOK]
    have ha := pyIntQ_range (show (0 : ℚ) ≤ 25 * (1 - p * (8 / 10)) by nlinarith)
      (by nlinarith)
    exact ⟨by decide, by decide, by decide, by decide, by decide, by decide, ha.1, ha.2⟩
  · intro c hc
    simp only [List.mem_singleton] at hc
    subst hc
    simp only [cmdColor]
    decide
  · intro c hc
    simp only [List.mem_map, List.mem_range] at hc
    obtain ⟨i, _, rfl⟩ := hc
    simp only [cmdColor]
    decide

lemma gem_ok (size : ℕ) : allColorsOK (draw_forehead_gem size) := by
  simp only [draw_forehead_gem]
  refine allColorsOK_append ?_ ?_
  · intro c hc
    simp only [List.mem_map] at hc
    obtain ⟨i, hi, rfl⟩ := hc
    have hb := mem_rangeDown (by norm_num) hi
    have h5 : (i : ℚ) ≤ 5 := by exact_mod_cast hb.2
    have h1 : (1 : ℚ) ≤ (i : ℚ) := by exact_mod_cast hb.1
    simp only [cmdColor, colorOK]
    have ha := pyIntQ_range (show (0 : ℚ) ≤ 20 * ((i : ℚ) / 5) by positivity) (by linarith)
    exact ⟨by decide, by decide, by decide, by decide, by decide, by decide, ha.1, ha.2⟩
  · intro c hc
    simp only [List.mem_cons, List.not_mem_nil, or_false] at hc
    rcases hc with rfl | rfl | rfl
    · simp only [cmdColor]; decide
    · simp only [cmdColor]; decide
    · simp only [cmdColor]; decide

lemma eyes_ok (size : ℕ) : allColorsOK (draw_luminous_eyes size) := by
  intro c hc
  simp only [draw_luminous_eyes, List.mem_flatMap] at hc
  obtain ⟨ex, _, hc2⟩ := hc
  rcases List.mem_append.mp hc2 with h | h
  · rcases List.mem_append.mp h with h2 | h2
    · simp only [List.mem_cons, List.not_mem_nil, or_false] at h2
      rcases h2 with rfl | rfl
      · simp only [cmdColor]; decide
      · simp only [cmdColor]; decide
    · simp only [List.mem_map, List.mem_range] at h2
      obtain ⟨layer, _, rfl⟩ := h2
      simp only [cmdColor]
      exact layerColor_ok layer
  · simp only [List.mem_cons, List.not_mem_nil, or_false] at h
    rcases h with rfl | rfl
    · simp only [cmdColor]; decide
    · simp only [cmdColor]; decide

lemma details_ok (size : ℕ) : allColorsOK (add_face_details size) := by
  simp only [add_face_details]
  refine allColorsOK_append ?_ ?_
  · intro c hc
    simp only [List.mem_cons, List.not_mem_nil, or_false] at hc
    rcases hc with rfl | rfl
    · simp only [cmdColor]; decide
    · simp only [cmdColor]; decide
  · intro c hc
    simp only [List.mem_flatMap] at hc
    obtain ⟨xo, _, hc2⟩ := hc
    rcases List.mem_append.mp hc2 with h | h
    · simp only [List.mem_map] at h
      obtain ⟨i, hi, rfl⟩ := h
      have hb := mem_rangeDown (by norm_num) hi
      have h5 : (i : ℚ) ≤ 5 := by exact_mod_cast hb.2
      have h1 : (1 : ℚ) ≤ (i : ℚ) := by exact_mod_cast hb.1
      simp only [cmdColor, colorOK]
      have ha := pyIntQ_range (show (0 : ℚ) ≤ 30 * ((i : ℚ) / 5) by positivity) (by linarith)
      exact ⟨by decide, by decide, by decide, by decide, by decide, by decide, ha.1, ha.2⟩
    · simp only [List.mem_cons, List.not_mem_nil, or_false] at h
      rcases h with rfl | rfl
      · simp only [cmdColor]; decide
      · simp only [cmdColor]; decide

lemma glow_cmds_ok (size : ℕ) : allColorsOK (glow_cmds size) := by
  intro c hc
  simp only [glow_cmds, List.mem_map] at hc
  obtain ⟨ex, _, rfl⟩ := hc
  simp only [cmdColor]
  decide

lemma allCmds_generate_icon (g : PyRng) (size : ℕ) :
    allCmds (generate_icon g size).1 =
      vignette_cmds size
        ++ ((if 256 ≤ size then (draw_circuit_pattern g size).1 else [])
        ++ (draw_metallic_face size ++ (draw_forehead_gem size
        ++ (draw_luminous_eyes size ++ (add_face_details size ++ glow_cmds size))))) := by
  by_cases h : 256 ≤ size <;>
    simp [generate_icon, add_eye_glow, allCmds, mode, h, List.append_assoc]

lemma generate_icon_colors_ok (g : PyRng) (size : ℕ) :
    allColorsOK (allCmds (generate_icon g size).1) := by
  rw [allCmds_generate_icon]
  refine allColorsOK_append (vignette_ok size)
    (allColorsOK_append ?_ (allColorsOK_append (face_ok size)
      (allColorsOK_append (gem_ok size) (allColorsOK_append (eyes_ok size)
        (allColorsOK_append (details_ok size) (glow_cmds_ok size))))))
  split
  · exact circuit_ok g size
  · exact allColorsOK_nil

/-! ### Real-number lemmas for the radial gradient -/

lemma pyIntR_eq_floor {x : ℝ} (h : 0 ≤ x) : pyIntR x = ⌊x⌋ := by
  unfold pyIntR
  exact if_pos h

lemma div_mem_unit {d r : ℝ} (hd0 : 0 ≤ d) (hdr : d ≤ r) : 0 ≤ d / r ∧ d / r ≤ 1 := by
  rcases eq_or_lt_of_le (hd0.trans hdr) with h | h
  · rw [← h, div_zero]
    norm_num
  · exact ⟨div_nonneg hd0 h.le, (div_le_one h).mpr hdr⟩

lemma gradChannel_ok {a b t : ℝ} (ha : 0 ≤ a ∧ a ≤ 255) (hb : 0 ≤ b ∧ b ≤ 255)
    (ht : 0 ≤ t ∧ t ≤ 1) :
    0 ≤ pyIntR (a * (1 - t) + b * t) ∧ pyIntR (a * (1 - t) + b * t) ≤ 255 := by
  have h1 : 0 ≤ a * (1 - t) + b * t :=
    add_nonneg (mul_nonneg ha.1 (by linarith)) (mul_nonneg hb.1 ht.1)
  have h2 : a * (1 - t) + b * t ≤ 255 := by
    have k1 : a * (1 - t) ≤ 255 * (1 - t) := mul_le_mul_of_nonneg_right ha.2 (by linarith)
    have k2 : b * t ≤ 255 * t := mul_le_mul_of_nonneg_right hb.2 ht.1
    linarith
  rw [pyIntR_eq_floor h1]
  refine ⟨Int.le_floor.mpr (by exact_mod_cast h1), ?_⟩
  have h3 : (⌊a * (1 - t) + b * t⌋ : ℝ) ≤ 255 := le_trans (Int.floor_le _) h2
  exact_mod_cast h3

lemma getD_range {l : List ℤ} (h : ∀ ch ∈ l, 0 ≤ ch ∧ ch ≤ 255) (k : ℕ) :
    0 ≤ l.getD k 0 ∧ l.getD k 0 ≤ 255 := by
  induction l generalizing k with
  | nil => simp [List.getD]
  | cons a tl ih =>
    cases k with
    | zero =>
      rw [List.getD_cons_zero]
      exact h a (List.mem_cons_self a tl)
    | succ n =>
      rw [List.getD_cons_succ]
      exact ih (fun ch hch => h ch (List.mem_cons_of_mem a hch)) n

lemma getD_castR {l : List ℤ} (h : ∀ ch ∈ l, 0 ≤ ch ∧ ch ≤ 255) (k : ℕ) :
    0 ≤ ((l.getD k 0 : ℤ) : ℝ) ∧ ((l.getD k 0 : ℤ) : ℝ) ≤ 255 := by
  obtain ⟨h0, h1⟩ := getD_range h k
  exact ⟨by exact_mod_cast h0, by exact_mod_cast h1⟩

/-- C2: pixel values stay in range: given gradient endpoint colors with
channels in [0, 255], every channel `create_radial_gradient` computes lies
in [0, 255] (untouched pixels included); the derived layer colors of
`draw_luminous_eyes` are in range; and every fill color of every drawing
primitive issued by the whole `generate_icon` pipeline (the palette
constants being in range) is in range, at every size. -/
theorem adjutant_c2 (inner_color outer_color : List ℤ)
    (hin : ∀ ch ∈ inner_color, 0 ≤ ch ∧ ch ≤ 255)
    (hout : ∀ ch ∈ outer_color, 0 ≤ ch ∧ ch ≤ 255)
    (size : ℕ) (center : ℤ × ℤ) (radius : ℤ) (x y : ℕ)
    (g : PyRng) (sz : ℕ) (layer : ℕ) :
    colorOK (create_radial_gradient size center inner_color outer_color radius x y)
    ∧ colorOK (rgbFill (layerColor layer))
    ∧ allColorsOK (allCmds (generate_icon g sz).1) := by
  refine ⟨?_, layerColor_ok layer, generate_icon_colors_ok g sz⟩
  simp only [create_radial_gradient]
  split
  · split
    · rename_i hd
      obtain ⟨ht0, ht1⟩ := div_mem_unit (Real.sqrt_nonneg _) hd
      simp only [colorOK]
      have h0 := gradChannel_ok (getD_castR hin 0) (getD_castR hout 0) ⟨ht0, ht1⟩
      have h1 := gradChannel_ok (getD_castR hin 1) (getD_castR hout 1) ⟨ht0, ht1⟩
      have h2 := gradChannel_ok (getD_castR hin 2) (getD_castR hout 2) ⟨ht0, ht1⟩
      have h3 := gradChannel_ok (getD_castR hin 3) (getD_castR hout 3) ⟨ht0, ht1⟩
      refine ⟨h0.1, h0.2, h1.1, h1.2, h2.1, h2.2, ?_, ?_⟩
      · split
        · exact h3.1
        · norm_num
      · split
        · exact h3.2
        · norm_num
    · decide
  · decide

/-- C2 witness: the hypotheses hold and the theorem applies at a concrete
gradient call, a concrete layer and a concrete icon size. -/
theorem adjutant_c2_witness :
    (∀ ch ∈ ([0, 100, 200, 255] : List ℤ), 0 ≤ ch ∧ ch ≤ 255)
    ∧ (∀ ch ∈ ([255, 0, 0, 10] : List ℤ), 0 ≤ ch ∧ ch ≤ 255)
    ∧ (colorOK (create_radial_gradient 4 (0, 0) [0, 100, 200, 255] [255, 0, 0, 10] 5 1 2)
       ∧ colorOK (rgbFill (layerColor 2))
       ∧ allColorsOK (allCmds (generate_icon (PyRng.seed 0) 1).1)) :=
  ⟨by decide, by decide,
   adjutant_c2 [0, 100, 200, 255] [255, 0, 0, 10] (by decide) (by decide)
     4 (0, 0) 5 1 2 (PyRng.seed 0) 1 2⟩

/-- C10: inside the image, a pixel at Euclidean distance `d ≤ radius` from
the center gets the component-wise floor of the linear interpolation
between the four-component colors, and a pixel at distance `d > radius`
stays fully transparent `(0, 0, 0, 0)`. -/
theorem adjutant_c10 (size : ℕ) (center : ℤ × ℤ) (i0 i1 i2 i3 o0 o1 o2 o3 : ℤ)
    (radius : ℤ) (x y : ℕ) (hx : x < size) (hy : y < size) (hr : 0 < radius)
    (hi : (0 ≤ i0 ∧ i0 ≤ 255) ∧ (0 ≤ i1 ∧ i1 ≤ 255) ∧ (0 ≤ i2 ∧ i2 ≤ 255)
      ∧ (0 ≤ i3 ∧ i3 ≤ 255))
    (ho : (0 ≤ o0 ∧ o0 ≤ 255) ∧ (0 ≤ o1 ∧ o1 ≤ 255) ∧ (0 ≤ o2 ∧ o2 ≤ 255)
      ∧ (0 ≤ o3 ∧ o3 ≤ 255))
    (d : ℝ)
    (hd : d = Real.sqrt ((((x : ℤ) - center.1) ^ 2 + ((y : ℤ) - center.2) ^ 2 : ℤ) : ℝ)) :
    (d ≤ (radius : ℝ) →
      create_radial_gradient size center [i0, i1, i2, i3] [o0, o1, o2, o3] radius x y =
        (⌊(i0 : ℝ) * (1 - d / (radius : ℝ)) + (o0 : ℝ) * (d / (radius : ℝ))⌋,
         ⌊(i1 : ℝ) * (1 - d / (radius : ℝ)) + (o1 : ℝ) * (d / (radius : ℝ))⌋,
         ⌊(i2 : ℝ) * (1 - d / (radius : ℝ)) + (o2 : ℝ) * (d / (radius : ℝ))⌋,
         ⌊(i3 : ℝ) * (1 - d / (radius : ℝ)) + (o3 : ℝ) * (d / (radius : ℝ))⌋))
    ∧ ((radius : ℝ) < d →
      create_radial_gradient size center [i0, i1, i2, i3] [o0, o1, o2, o3] radius x y =
        (0, 0, 0, 0)) := by
  subst hd
  constructor
  · intro hdr
    simp only [create_radial_gradient]
    rw [if_pos ⟨hx, hy⟩, if_pos hdr]
    obtain ⟨ht0, ht1⟩ := div_mem_unit (Real.sqrt_nonneg _) hdr
    simp only [List.getD_cons_zero, List.getD_cons_succ, List.length_cons,
      List.length_nil]
    have h1t : (0 : ℝ) ≤ 1 -
        Real.sqrt ((((x : ℤ) - center.1) ^ 2 + ((y : ℤ) - center.2) ^ 2 : ℤ) : ℝ) /
          (radius : ℝ) := by linarith
    have hn : ∀ a b : ℤ, 0 ≤ a → 0 ≤ b →
        (0 : ℝ) ≤ (a : ℝ) *
            (1 - Real.sqrt ((((x : ℤ) - center.1) ^ 2 + ((y : ℤ) - center.2) ^ 2 : ℤ) : ℝ) /
              (radius : ℝ))
          + (b : ℝ) *
            (Real.sqrt ((((x : ℤ) - center.1) ^ 2 + ((y : ℤ) - center.2) ^ 2 : ℤ) : ℝ) /
              (radius : ℝ)) := by
      intro a b ha hb
      have ha' : (0 : ℝ) ≤ (a : ℝ) := by exact_mod_cast ha
      have hb' : (0 : ℝ) ≤ (b : ℝ) := by exact_mod_cast hb
      exact add_nonneg (mul_nonneg ha' h1t) (mul_nonneg hb' ht0)
    rw [if_pos (by norm_num : (3 : ℕ) < 3 + 1)]
    rw [pyIntR_eq_floor (hn i0 o0 hi.1.1 ho.1.1),
        pyIntR_eq_floor (hn i1 o1 hi.2.1.1 ho.2.1.1),
        pyIntR_eq_floor (hn i2 o2 hi.2.2.1.1 ho.2.2.1.1),
        pyIntR_eq_floor (hn i3 o3 hi.2.2.2.1 ho.2.2.2.1)]
  · intro hdr
    simp only [create_radial_gradient]
    rw [if_pos ⟨hx, hy⟩, if_neg (not_le.mpr hdr)]

/-- C10 witness: the theorem applies at a concrete gradient call whose
pixel sits exactly at the center (distance 0). -/
theorem adjutant_c10_witness :
    ((3 : ℕ) < 8 ∧ (4 : ℕ) < 8 ∧ (0 : ℤ) < 1
      ∧ (0 : ℝ) = Real.sqrt (((((3 : ℕ) : ℤ) - 3) ^ 2 + (((4 : ℕ) : ℤ) - 4) ^ 2 : ℤ) : ℝ))
    ∧ (((0 : ℝ) ≤ ((1 : ℤ) : ℝ) →
        create_radial_gradient 8 (3, 4) [1, 2, 3, 4] [5, 6, 7, 8] 1 3 4 =
          (⌊(((1 : ℤ)) : ℝ) * (1 - (0 : ℝ) / (((1 : ℤ)) : ℝ)) + (((5 : ℤ)) : ℝ) * ((0 : ℝ) / (((1 : ℤ)) : ℝ))⌋,
           ⌊(((2 : ℤ)) : ℝ) * (1 - (0 : ℝ) / (((1 : ℤ)) : ℝ)) + (((6 : ℤ)) : ℝ) * ((0 : ℝ) / (((1 : ℤ)) : ℝ))⌋,
           ⌊(((3 : ℤ)) : ℝ) * (1 - (0 : ℝ) / (((1 : ℤ)) : ℝ)) + (((7 : ℤ)) : ℝ) * ((0 : ℝ) / (((1 : ℤ)) : ℝ))⌋,
           ⌊(((4 : ℤ)) : ℝ) * (1 - (0 : ℝ) / (((1 : ℤ)) : ℝ)) + (((8 : ℤ)) : ℝ) * ((0 : ℝ) / (((1 : ℤ)) : ℝ))⌋))
      ∧ (((1 : ℤ) : ℝ) < (0 : ℝ) →
        create_radial_gradient 8 (3, 4) [1, 2, 3, 4] [5, 6, 7, 8] 1 3 4 = (0, 0, 0, 0))) :=
  ⟨⟨by norm_num, by norm_num, by norm_num, by norm_num [Real.sqrt_eq_zero]⟩,
   adjutant_c10 8 (3, 4) 1 2 3 4 5 6 7 8 1 3 4 (by norm_num) (by norm_num) (by norm_num)
     (by norm_num) (by norm_num) 0 (by norm_num [Real.sqrt_eq_zero])⟩

/-- C3 witness: the theorem applies at the concrete table entry
AppIcon-152.png / 152. -/
theorem adjutant_c3_witness :
    (("AppIcon-152.png", 152) ∈ sizes)
    ∧ (Event.save "AppIcon-152.png"
         (icon_for (generate_icon (PyRng.seed 0) 1024).1 152) ∈ main_events (PyRng.seed 0)
       ∧ dims (icon_for (generate_icon (PyRng.seed 0) 1024).1 152) = (152, 152)) :=
  ⟨by decide, adjutant_c3 (PyRng.seed 0) ("AppIcon-152.png", 152) (by decide)⟩
